import Mathlib

/-!
Shallow embedding of `src/evaluation/term.rs` from thesislang-rs:
the evaluator's uniform term/value representation with its dual
(trusted / fallible) accessor protocol.
-/

namespace ThesisLang

/-- Modelled from the spec: `crate::syntax::Symbol` is an external
collaborator — "an interned-identifier type (symbol), treated as an opaque
value variant". Its source is not part of this component; it is modelled
as an opaque identifier with decidable equality. -/
structure Symbol where
  id : Nat
  deriving DecidableEq

/-- Modelled from the spec: `super::combiner::NativeFn` is an external
collaborator — "a native/primitive-callable type, treated as an opaque
value variant, supplied and invoked by a separate combiner/dispatch
subsystem". Modelled as an opaque reference with decidable equality. -/
structure NativeFn where
  id : Nat
  deriving DecidableEq

/-- Modelled from the spec: the external typed error facility
(`crate::error`), "from which this component raises exactly one kind" —
the type-mismatch condition. Only that kind is in scope here. -/
inductive ErrorKind where
  | TypeMismatch
  deriving DecidableEq

/-- Modelled from the spec: the error value carrying its kind
(`crate::error::Error`). -/
structure Error where
  kind : ErrorKind
  deriving DecidableEq

/-- `Error::new` on the modelled error facility. -/
def Error.new (k : ErrorKind) : Error := ⟨k⟩

/-- `type BooleanValue = bool;` (term.rs line 138). -/
abbrev BooleanValue := Bool

/-- `UnitValue` (term.rs lines 133-136): the unit sentinel enum with its
single `Ignore` variant. -/
inductive UnitValue where
  | Ignore
  deriving DecidableEq

/-- `TermValue` (term.rs lines 17-25): the closed enumeration of atomic
payload kinds. `i64` payloads are modelled as `Int`; the component performs
no arithmetic on them, so no wrap-around is observable. -/
inductive TermValue where
  | Bool (val : Bool)
  | Int (val : Int)
  | PrimitiveFn (val : NativeFn)
  | Str (val : String)
  | Sym (val : Symbol)
  | Unit (val : UnitValue)
  deriving DecidableEq

/-- `Term` (term.rs lines 9-15): `has_value` flag, `sub_terms` child
sequence (a `LinkedList<Term>`, modelled as `List Term`), the primary
`value` slot and the secondary `value_ref` slot (a `RefCell<TermValue>`,
modelled by its contents). -/
inductive Term where
  | mk (has_value : Bool) (sub_terms : List Term) (value : TermValue)
      (value_ref : TermValue)

def Term.has_value : Term → Bool
  | .mk h _ _ _ => h

def Term.sub_terms : Term → List Term
  | .mk _ s _ _ => s

def Term.value : Term → TermValue
  | .mk _ _ v _ => v

def Term.value_ref : Term → TermValue
  | .mk _ _ _ r => r

/-- Field assignment `term.has_value = b` on the `pub(crate)`-visible
struct. -/
def Term.set_has_value : Term → Bool → Term
  | .mk _ s v r, h => .mk h s v r

/-- Field assignment `term.value = v`. -/
def Term.set_value : Term → TermValue → Term
  | .mk h s _ r, v => .mk h s v r

/-- Replacing the contents of the `value_ref` cell (interior mutability of
the `RefCell`). -/
def Term.set_value_ref : Term → TermValue → Term
  | .mk h s v _, r => .mk h s v r

/-- `Term::new` (term.rs lines 28-35): leaf with `has_value = false`, no
children, both value slots holding the unit sentinel. -/
def Term.new : Term :=
  .mk false [] (.Unit .Ignore) (.Unit .Ignore)

/-- `Default for Term` (term.rs lines 46-50): delegates to `Term::new`. -/
def Term.default : Term := Term.new

/-- `Term::is_branch` (term.rs lines 37-39): `!self.sub_terms.is_empty()`. -/
def Term.is_branch (t : Term) : Bool :=
  !t.sub_terms.isEmpty

/-- `Term::len` (term.rs lines 41-43): `self.sub_terms.len()`. -/
def Term.len (t : Term) : Nat :=
  t.sub_terms.length

/-- Derived `PartialEq` on `TermValue`: same variant and equal payloads.
Payload comparisons use the payload types' decidable equality. -/
def TermValue.beq : TermValue → TermValue → BooleanValue
  | .Bool a, .Bool b => decide (a = b)
  | .Int a, .Int b => decide (a = b)
  | .PrimitiveFn a, .PrimitiveFn b => decide (a = b)
  | .Str a, .Str b => decide (a = b)
  | .Sym a, .Sym b => decide (a = b)
  | .Unit a, .Unit b => decide (a = b)
  | _, _ => false

mutual

/-- Derived `PartialEq` on `Term`: field-wise comparison of all four
fields, including the `value_ref` cell contents (`RefCell<T>`'s
`PartialEq` compares the borrowed contents). -/
def Term.beq : Term → Term → Bool
  | .mk h1 s1 v1 r1, .mk h2 s2 v2 r2 =>
    decide (h1 = h2) && Term.beqList s1 s2 && TermValue.beq v1 v2 &&
      TermValue.beq r1 r2

/-- Element-wise `PartialEq` on the child sequence (`LinkedList<Term>`). -/
def Term.beqList : List Term → List Term → Bool
  | [], [] => true
  | a :: as, b :: bs => Term.beq a b && Term.beqList as bs
  | _, _ => false

end

/-- `Debug` rendering of the unit sentinel (derived: prints the variant
name). -/
def UnitValue.debug : UnitValue → String
  | .Ignore => "Ignore"

/-- `Debug` rendering of the modelled opaque `Symbol`. -/
def Symbol.debug (s : Symbol) : String :=
  "Symbol(" ++ toString s.id ++ ")"

/-- `Debug` rendering of the modelled opaque `NativeFn`. -/
def NativeFn.debug (f : NativeFn) : String :=
  "NativeFn(" ++ toString f.id ++ ")"

/-- One character of Rust's `Debug` escaping for string contents (the
escapes exercised by this component's diagnostics). -/
def escapeDebugChar (c : Char) : String :=
  if c = '"' then "\\\""
  else if c = '\\' then "\\\\"
  else if c = '\n' then "\\n"
  else if c = '\t' then "\\t"
  else if c = '\x0d' then "\\r"
  else String.singleton c

/-- Rust's `Debug` rendering of a `String`: quoted, contents escaped. -/
def debugString (s : String) : String :=
  "\"" ++ String.join (s.toList.map escapeDebugChar) ++ "\""

/-- Derived `Debug` on `TermValue`: variant name around the payload's
`Debug` form. `i64` payloads print in decimal with a leading minus sign
when negative, as `Int.repr` does. -/
def TermValue.debug : TermValue → String
  | .Bool b => "Bool(" ++ (if b then "true" else "false") ++ ")"
  | .Int i => "Int(" ++ toString i ++ ")"
  | .PrimitiveFn f => "PrimitiveFn(" ++ f.debug ++ ")"
  | .Str s => "Str(" ++ debugString s ++ ")"
  | .Sym s => "Sym(" ++ s.debug ++ ")"
  | .Unit u => "Unit(" ++ u.debug ++ ")"

mutual

/-- Derived `Debug` on `Term`: struct name and all four fields, the
`RefCell` printing as `RefCell { value: .. }`. -/
def Term.debug : Term → String
  | .mk h s v r =>
    "Term \x7b has_value: " ++ (if h then "true" else "false") ++
      ", sub_terms: [" ++ Term.debugItems s ++ "], value: " ++ v.debug ++
      ", value_ref: RefCell \x7b value: " ++ r.debug ++ " \x7d \x7d"

/-- Comma-separated `Debug` items of a `LinkedList<Term>` (its `Debug`
form is `[item, item, ..]`). -/
def Term.debugItems : List Term → String
  | [] => ""
  | [t] => Term.debug t
  | t :: rest => Term.debug t ++ ", " ++ Term.debugItems rest

end

/-- `Display for Term` (term.rs lines 52-60): if `has_value` is false,
write the `Debug` form of the child sequence, otherwise the `Debug` form
of the primary value. -/
def Term.display (t : Term) : String :=
  if !t.has_value then "[" ++ Term.debugItems t.sub_terms ++ "]"
  else t.value.debug

/-!
The accessor protocol and conversion constructors (term.rs lines 62-131,
instantiated at lines 140-145 for the six payload types). The
`impl_access!` macro generates, per payload type `$ty` with variant
`$ty_id`: `Access` / `AccessMut` (trusted; `panic` on mismatch, modelled
as `none`), `TryAccess` / `TryAccessMut` (fallible;
`Err(Error::new(ErrorKind::TypeMismatch))` on mismatch), and
`From<$ty> for Term`. Every one of them matches on `self.value` only.
The mutable accessors return a mutable borrow of the same payload; their
read behaviour, which is all the contract speaks about, is embedded.
-/

/-- `Access<BooleanValue>::access`. `none` models the unrecoverable
fault. -/
def Term.access_bool (t : Term) : Option BooleanValue :=
  match t.value with
  | .Bool val => some val
  | _ => none

/-- `AccessMut<BooleanValue>::access_mut`. -/
def Term.access_mut_bool (t : Term) : Option BooleanValue :=
  match t.value with
  | .Bool val => some val
  | _ => none

/-- `TryAccess<BooleanValue>::try_access`. -/
def Term.try_access_bool (t : Term) : Except Error BooleanValue :=
  match t.value with
  | .Bool val => .ok val
  | _ => .error (Error.new .TypeMismatch)

/-- `TryAccessMut<BooleanValue>::try_access_mut`. -/
def Term.try_access_mut_bool (t : Term) : Except Error BooleanValue :=
  match t.value with
  | .Bool val => .ok val
  | _ => .error (Error.new .TypeMismatch)

/-- `From<BooleanValue> for Term`: `Term::new()` with `has_value` set and
`value` overwritten. -/
def Term.from_bool (value : BooleanValue) : Term :=
  (Term.new.set_has_value true).set_value (.Bool value)

/-- `Access<i64>::access`. -/
def Term.access_i64 (t : Term) : Option Int :=
  match t.value with
  | .Int val => some val
  | _ => none

/-- `AccessMut<i64>::access_mut`. -/
def Term.access_mut_i64 (t : Term) : Option Int :=
  match t.value with
  | .Int val => some val
  | _ => none

/-- `TryAccess<i64>::try_access`. -/
def Term.try_access_i64 (t : Term) : Except Error Int :=
  match t.value with
  | .Int val => .ok val
  | _ => .error (Error.new .TypeMismatch)

/-- `TryAccessMut<i64>::try_access_mut`. -/
def Term.try_access_mut_i64 (t : Term) : Except Error Int :=
  match t.value with
  | .Int val => .ok val
  | _ => .error (Error.new .TypeMismatch)

/-- `From<i64> for Term`. -/
def Term.from_i64 (value : Int) : Term :=
  (Term.new.set_has_value true).set_value (.Int value)

/-- `Access<NativeFn>::access`. -/
def Term.access_native_fn (t : Term) : Option NativeFn :=
  match t.value with
  | .PrimitiveFn val => some val
  | _ => none

/-- `AccessMut<NativeFn>::access_mut`. -/
def Term.access_mut_native_fn (t : Term) : Option NativeFn :=
  match t.value with
  | .PrimitiveFn val => some val
  | _ => none

/-- `TryAccess<NativeFn>::try_access`. -/
def Term.try_access_native_fn (t : Term) : Except Error NativeFn :=
  match t.value with
  | .PrimitiveFn val => .ok val
  | _ => .error (Error.new .TypeMismatch)

/-- `TryAccessMut<NativeFn>::try_access_mut`. -/
def Term.try_access_mut_native_fn (t : Term) : Except Error NativeFn :=
  match t.value with
  | .PrimitiveFn val => .ok val
  | _ => .error (Error.new .TypeMismatch)

/-- `From<NativeFn> for Term`. -/
def Term.from_native_fn (value : NativeFn) : Term :=
  (Term.new.set_has_value true).set_value (.PrimitiveFn value)

/-- `Access<UnitValue>::access`. -/
def Term.access_unit_value (t : Term) : Option UnitValue :=
  match t.value with
  | .Unit val => some val
  | _ => none

/-- `AccessMut<UnitValue>::access_mut`. -/
def Term.access_mut_unit_value (t : Term) : Option UnitValue :=
  match t.value with
  | .Unit val => some val
  | _ => none

/-- `TryAccess<UnitValue>::try_access`. -/
def Term.try_access_unit_value (t : Term) : Except Error UnitValue :=
  match t.value with
  | .Unit val => .ok val
  | _ => .error (Error.new .TypeMismatch)

/-- `TryAccessMut<UnitValue>::try_access_mut`. -/
def Term.try_access_mut_unit_value (t : Term) : Except Error UnitValue :=
  match t.value with
  | .Unit val => .ok val
  | _ => .error (Error.new .TypeMismatch)

/-- `From<UnitValue> for Term`. -/
def Term.from_unit_value (value : UnitValue) : Term :=
  (Term.new.set_has_value true).set_value (.Unit value)

/-- `Access<String>::access`. -/
def Term.access_string (t : Term) : Option String :=
  match t.value with
  | .Str val => some val
  | _ => none

/-- `AccessMut<String>::access_mut`. -/
def Term.access_mut_string (t : Term) : Option String :=
  match t.value with
  | .Str val => some val
  | _ => none

/-- `TryAccess<String>::try_access`. -/
def Term.try_access_string (t : Term) : Except Error String :=
  match t.value with
  | .Str val => .ok val
  | _ => .error (Error.new .TypeMismatch)

/-- `TryAccessMut<String>::try_access_mut`. -/
def Term.try_access_mut_string (t : Term) : Except Error String :=
  match t.value with
  | .Str val => .ok val
  | _ => .error (Error.new .TypeMismatch)

/-- `From<String> for Term`. -/
def Term.from_string (value : String) : Term :=
  (Term.new.set_has_value true).set_value (.Str value)

/-- `Access<Symbol>::access`. -/
def Term.access_symbol (t : Term) : Option Symbol :=
  match t.value with
  | .Sym val => some val
  | _ => none

/-- `AccessMut<Symbol>::access_mut`. -/
def Term.access_mut_symbol (t : Term) : Option Symbol :=
  match t.value with
  | .Sym val => some val
  | _ => none

/-- `TryAccess<Symbol>::try_access`. -/
def Term.try_access_symbol (t : Term) : Except Error Symbol :=
  match t.value with
  | .Sym val => .ok val
  | _ => .error (Error.new .TypeMismatch)

/-- `TryAccessMut<Symbol>::try_access_mut`. -/
def Term.try_access_mut_symbol (t : Term) : Except Error Symbol :=
  match t.value with
  | .Sym val => .ok val
  | _ => .error (Error.new .TypeMismatch)

/-- `From<Symbol> for Term`. -/
def Term.from_symbol (value : Symbol) : Term :=
  (Term.new.set_has_value true).set_value (.Sym value)

/-- Agreement of all 24 accessor instantiations on two terms: every
trusted and fallible accessor, read or mutable, for every payload type,
returns the same result on both. -/
def accessors_agree (t₁ t₂ : Term) : Prop :=
  t₁.access_bool = t₂.access_bool ∧
  t₁.access_mut_bool = t₂.access_mut_bool ∧
  t₁.try_access_bool = t₂.try_access_bool ∧
  t₁.try_access_mut_bool = t₂.try_access_mut_bool ∧
  t₁.access_i64 = t₂.access_i64 ∧
  t₁.access_mut_i64 = t₂.access_mut_i64 ∧
  t₁.try_access_i64 = t₂.try_access_i64 ∧
  t₁.try_access_mut_i64 = t₂.try_access_mut_i64 ∧
  t₁.access_native_fn = t₂.access_native_fn ∧
  t₁.access_mut_native_fn = t₂.access_mut_native_fn ∧
  t₁.try_access_native_fn = t₂.try_access_native_fn ∧
  t₁.try_access_mut_native_fn = t₂.try_access_mut_native_fn ∧
  t₁.access_unit_value = t₂.access_unit_value ∧
  t₁.access_mut_unit_value = t₂.access_mut_unit_value ∧
  t₁.try_access_unit_value = t₂.try_access_unit_value ∧
  t₁.try_access_mut_unit_value = t₂.try_access_mut_unit_value ∧
  t₁.access_string = t₂.access_string ∧
  t₁.access_mut_string = t₂.access_mut_string ∧
  t₁.try_access_string = t₂.try_access_string ∧
  t₁.try_access_mut_string = t₂.try_access_mut_string ∧
  t₁.access_symbol = t₂.access_symbol ∧
  t₁.access_mut_symbol = t₂.access_mut_symbol ∧
  t₁.try_access_symbol = t₂.try_access_symbol ∧
  t₁.try_access_mut_symbol = t₂.try_access_mut_symbol


/-- C1: for every value variant V and every value v, building a leaf via
the `From` conversion and then trusted-accessing it as V returns v
unchanged, for all six variants. -/
theorem round_trip_access :
    (∀ v : BooleanValue, (Term.from_bool v).access_bool = some v) ∧
    (∀ v : Int, (Term.from_i64 v).access_i64 = some v) ∧
    (∀ v : NativeFn, (Term.from_native_fn v).access_native_fn = some v) ∧
    (∀ v : String, (Term.from_string v).access_string = some v) ∧
    (∀ v : Symbol, (Term.from_symbol v).access_symbol = some v) ∧
    (∀ v : UnitValue, (Term.from_unit_value v).access_unit_value = some v) :=
  ⟨fun _ => rfl, fun _ => rfl, fun _ => rfl, fun _ => rfl, fun _ => rfl,
   fun _ => rfl⟩

/-- C2: the fallible accessors (`try_access`, `try_access_mut`) on a
freshly wrapped V-term succeed with the payload when asked for V, and
return `Error::new(ErrorKind::TypeMismatch)` directly (no retry, no
recovery) when asked for any other variant W — all 30 ordered (V, W)
pairs, both the read and the mutable form. -/
theorem fallible_access_success_and_mismatch :
    (∀ v : BooleanValue, (Term.from_bool v).try_access_bool = Except.ok v ∧
      (Term.from_bool v).try_access_mut_bool = Except.ok v) ∧
    (∀ v : Int, (Term.from_i64 v).try_access_i64 = Except.ok v ∧
      (Term.from_i64 v).try_access_mut_i64 = Except.ok v) ∧
    (∀ v : NativeFn, (Term.from_native_fn v).try_access_native_fn = Except.ok v ∧
      (Term.from_native_fn v).try_access_mut_native_fn = Except.ok v) ∧
    (∀ v : String, (Term.from_string v).try_access_string = Except.ok v ∧
      (Term.from_string v).try_access_mut_string = Except.ok v) ∧
    (∀ v : Symbol, (Term.from_symbol v).try_access_symbol = Except.ok v ∧
      (Term.from_symbol v).try_access_mut_symbol = Except.ok v) ∧
    (∀ v : UnitValue, (Term.from_unit_value v).try_access_unit_value = Except.ok v ∧
      (Term.from_unit_value v).try_access_mut_unit_value = Except.ok v) ∧
    (∀ v : BooleanValue,
      (Term.from_bool v).try_access_i64 = Except.error (Error.new .TypeMismatch) ∧
      (Term.from_bool v).try_access_mut_i64 = Except.error (Error.new .TypeMismatch) ∧
      (Term.from_bool v).try_access_native_fn = Except.error (Error.new .TypeMismatch) ∧
      (Term.from_bool v).try_access_mut_native_fn = Except.error (Error.new .TypeMismatch) ∧
      (Term.from_bool v).try_access_string = Except.error (Error.new .TypeMismatch) ∧
      (Term.from_bool v).try_access_mut_string = Except.error (Error.new .TypeMismatch) ∧
      (Term.from_bool v).try_access_symbol = Except.error (Error.new .TypeMismatch) ∧
      (Term.from_bool v).try_access_mut_symbol = Except.error (Error.new .TypeMismatch) ∧
      (Term.from_bool v).try_access_unit_value = Except.error (Error.new .TypeMismatch) ∧
      (Term.from_bool v).try_access_mut_unit_value = Except.error (Error.new .TypeMismatch)) ∧
    (∀ v : Int,
      (Term.from_i64 v).try_access_bool = Except.error (Error.new .TypeMismatch) ∧
      (Term.from_i64 v).try_access_mut_bool = Except.error (Error.new .TypeMismatch) ∧
      (Term.from_i64 v).try_access_native_fn = Except.error (Error.new .TypeMismatch) ∧
      (Term.from_i64 v).try_access_mut_native_fn = Except.error (Error.new .TypeMismatch) ∧
      (Term.from_i64 v).try_access_string = Except.error (Error.new .TypeMismatch) ∧
      (Term.from_i64 v).try_access_mut_string = Except.error (Error.new .TypeMismatch) ∧
      (Term.from_i64 v).try_access_symbol = Except.error (Error.new .TypeMismatch) ∧
      (Term.from_i64 v).try_access_mut_symbol = Except.error (Error.new .TypeMismatch) ∧
      (Term.from_i64 v).try_access_unit_value = Except.error (Error.new .TypeMismatch) ∧
      (Term.from_i64 v).try_access_mut_unit_value = Except.error (Error.new .TypeMismatch)) ∧
    (∀ v : NativeFn,
      (Term.from_native_fn v).try_access_bool = Except.error (Error.new .TypeMismatch) ∧
      (Term.from_native_fn v).try_access_mut_bool = Except.error (Error.new .TypeMismatch) ∧
      (Term.from_native_fn v).try_access_i64 = Except.error (Error.new .TypeMismatch) ∧
      (Term.from_native_fn v).try_access_mut_i64 = Except.error (Error.new .TypeMismatch) ∧
      (Term.from_native_fn v).try_access_string = Except.error (Error.new .TypeMismatch) ∧
      (Term.from_native_fn v).try_access_mut_string = Except.error (Error.new .TypeMismatch) ∧
      (Term.from_native_fn v).try_access_symbol = Except.error (Error.new .TypeMismatch) ∧
      (Term.from_native_fn v).try_access_mut_symbol = Except.error (Error.new .TypeMismatch) ∧
      (Term.from_native_fn v).try_access_unit_value = Except.error (Error.new .TypeMismatch) ∧
      (Term.from_native_fn v).try_access_mut_unit_value = Except.error (Error.new .TypeMismatch)) ∧
    (∀ v : String,
      (Term.from_string v).try_access_bool = Except.error (Error.new .TypeMismatch) ∧
      (Term.from_string v).try_access_mut_bool = Except.error (Error.new .TypeMismatch) ∧
      (Term.from_string v).try_access_i64 = Except.error (Error.new .TypeMismatch) ∧
      (Term.from_string v).try_access_mut_i64 = Except.error (Error.new .TypeMismatch) ∧
      (Term.from_string v).try_access_native_fn = Except.error (Error.new .TypeMismatch) ∧
      (Term.from_string v).try_access_mut_native_fn = Except.error (Error.new .TypeMismatch) ∧
      (Term.from_string v).try_access_symbol = Except.error (Error.new .TypeMismatch) ∧
      (Term.from_string v).try_access_mut_symbol = Except.error (Error.new .TypeMismatch) ∧
      (Term.from_string v).try_access_unit_value = Except.error (Error.new .TypeMismatch) ∧
      (Term.from_string v).try_access_mut_unit_value = Except.error (Error.new .TypeMismatch)) ∧
    (∀ v : Symbol,
      (Term.from_symbol v).try_access_bool = Except.error (Error.new .TypeMismatch) ∧
      (Term.from_symbol v).try_access_mut_bool = Except.error (Error.new .TypeMismatch) ∧
      (Term.from_symbol v).try_access_i64 = Except.error (Error.new .TypeMismatch) ∧
      (Term.from_symbol v).try_access_mut_i64 = Except.error (Error.new .TypeMismatch) ∧
      (Term.from_symbol v).try_access_native_fn = Except.error (Error.new .TypeMismatch) ∧
      (Term.from_symbol v).try_access_mut_native_fn = Except.error (Error.new .TypeMismatch) ∧
      (Term.from_symbol v).try_access_string = Except.error (Error.new .TypeMismatch) ∧
      (Term.from_symbol v).try_access_mut_string = Except.error (Error.new .TypeMismatch) ∧
      (Term.from_symbol v).try_access_unit_value = Except.error (Error.new .TypeMismatch) ∧
      (Term.from_symbol v).try_access_mut_unit_value = Except.error (Error.new .TypeMismatch)) ∧
    (∀ v : UnitValue,
      (Term.from_unit_value v).try_access_bool = Except.error (Error.new .TypeMismatch) ∧
      (Term.from_unit_value v).try_access_mut_bool = Except.error (Error.new .TypeMismatch) ∧
      (Term.from_unit_value v).try_access_i64 = Except.error (Error.new .TypeMismatch) ∧
      (Term.from_unit_value v).try_access_mut_i64 = Except.error (Error.new .TypeMismatch) ∧
      (Term.from_unit_value v).try_access_native_fn = Except.error (Error.new .TypeMismatch) ∧
      (Term.from_unit_value v).try_access_mut_native_fn = Except.error (Error.new .TypeMismatch) ∧
      (Term.from_unit_value v).try_access_string = Except.error (Error.new .TypeMismatch) ∧
      (Term.from_unit_value v).try_access_mut_string = Except.error (Error.new .TypeMismatch) ∧
      (Term.from_unit_value v).try_access_symbol = Except.error (Error.new .TypeMismatch) ∧
      (Term.from_unit_value v).try_access_mut_symbol = Except.error (Error.new .TypeMismatch)) :=
  ⟨fun _ => ⟨rfl, rfl⟩, fun _ => ⟨rfl, rfl⟩, fun _ => ⟨rfl, rfl⟩, fun _ => ⟨rfl, rfl⟩, fun _ => ⟨rfl, rfl⟩, fun _ => ⟨rfl, rfl⟩,
   fun _ => ⟨rfl, rfl, rfl, rfl, rfl, rfl, rfl, rfl, rfl, rfl⟩, fun _ => ⟨rfl, rfl, rfl, rfl, rfl, rfl, rfl, rfl, rfl, rfl⟩, fun _ => ⟨rfl, rfl, rfl, rfl, rfl, rfl, rfl, rfl, rfl, rfl⟩, fun _ => ⟨rfl, rfl, rfl, rfl, rfl, rfl, rfl, rfl, rfl, rfl⟩, fun _ => ⟨rfl, rfl, rfl, rfl, rfl, rfl, rfl, rfl, rfl, rfl⟩, fun _ => ⟨rfl, rfl, rfl, rfl, rfl, rfl, rfl, rfl, rfl, rfl⟩⟩

/-- C3: the trusted accessors (`access`, `access_mut`) never produce a
type-mismatch error value — their codomain has none; on a variant
mismatch they hit the `panic` branch (modelled `none`), and whenever the
term's held value is of the requested variant the fault branch is
unreachable: the accessor returns the payload. -/
theorem trusted_access_spec (t : Term) :
    (∀ v, t.value = TermValue.Bool v → t.access_bool = some v ∧ t.access_mut_bool = some v) ∧
    ((∀ v, t.value ≠ TermValue.Bool v) → t.access_bool = none ∧ t.access_mut_bool = none) ∧
    (∀ v, t.value = TermValue.Int v → t.access_i64 = some v ∧ t.access_mut_i64 = some v) ∧
    ((∀ v, t.value ≠ TermValue.Int v) → t.access_i64 = none ∧ t.access_mut_i64 = none) ∧
    (∀ v, t.value = TermValue.PrimitiveFn v → t.access_native_fn = some v ∧ t.access_mut_native_fn = some v) ∧
    ((∀ v, t.value ≠ TermValue.PrimitiveFn v) → t.access_native_fn = none ∧ t.access_mut_native_fn = none) ∧
    (∀ v, t.value = TermValue.Str v → t.access_string = some v ∧ t.access_mut_string = some v) ∧
    ((∀ v, t.value ≠ TermValue.Str v) → t.access_string = none ∧ t.access_mut_string = none) ∧
    (∀ v, t.value = TermValue.Sym v → t.access_symbol = some v ∧ t.access_mut_symbol = some v) ∧
    ((∀ v, t.value ≠ TermValue.Sym v) → t.access_symbol = none ∧ t.access_mut_symbol = none) ∧
    (∀ v, t.value = TermValue.Unit v → t.access_unit_value = some v ∧ t.access_mut_unit_value = some v) ∧
    ((∀ v, t.value ≠ TermValue.Unit v) → t.access_unit_value = none ∧ t.access_mut_unit_value = none) := by
  obtain ⟨h, s, v, r⟩ := t
  cases v <;>
    refine ⟨?_, ?_, ?_, ?_, ?_, ?_, ?_, ?_, ?_, ?_, ?_, ?_⟩ <;>
    simp [Term.value, Term.access_bool, Term.access_mut_bool, Term.access_i64,
      Term.access_mut_i64, Term.access_native_fn, Term.access_mut_native_fn,
      Term.access_string, Term.access_mut_string, Term.access_symbol,
      Term.access_mut_symbol, Term.access_unit_value, Term.access_mut_unit_value] <;>
    first
    | exact fun hmis => hmis _ rfl
    | exact ⟨UnitValue.Ignore, trivial⟩

/-- Witness for C3 at concrete inputs: trusted Int-access on a wrapped 42
returns the payload, and on a wrapped boolean it faults (`none`). -/
theorem trusted_access_spec_witness :
    (Term.from_i64 42).access_i64 = some 42 ∧
    (Term.from_bool true).access_i64 = none := by
  constructor
  · exact ((trusted_access_spec (Term.from_i64 42)).2.2.1 42 rfl).1
  · exact ((trusted_access_spec (Term.from_bool true)).2.2.2.1
      (fun v hv => nomatch hv)).1

/-- C4 counterexample: equality comparison does read the secondary
`value_ref` slot — the derived `PartialEq` compares all fields, so two
terms that differ only in the secondary slot's contents compare
differently against `Term::new()`. -/
theorem value_ref_equality_counterexample :
    Term.beq Term.new Term.new = true ∧
    Term.beq (Term.new.set_value_ref (TermValue.Int 0)) Term.new = false :=
  ⟨rfl, rfl⟩

/-- C4 amended: two terms differing only in their own secondary value
slot agree on `is_branch`, `len`, rendering, and all 24 trusted and
fallible accessor instantiations; equality comparison is the sole
documented operation that reads the slot. -/
theorem value_ref_unread_except_equality (t : Term) (r : TermValue) :
    (t.set_value_ref r).is_branch = t.is_branch ∧
    (t.set_value_ref r).len = t.len ∧
    (t.set_value_ref r).display = t.display ∧
    accessors_agree (t.set_value_ref r) t := by
  obtain ⟨h, s, v, r₀⟩ := t
  refine ⟨rfl, rfl, rfl, ?_⟩
  unfold accessors_agree
  exact ⟨rfl, rfl, rfl, rfl, rfl, rfl, rfl, rfl, rfl, rfl, rfl, rfl, rfl,
    rfl, rfl, rfl, rfl, rfl, rfl, rfl, rfl, rfl, rfl, rfl⟩

/-- C5: a default-constructed term and an explicitly wrapped unit
sentinel do not compare equal (`has_value` differs), and they render
differently: the default renders as its empty child sequence, the
wrapped unit as its value. -/
theorem default_vs_wrapped_unit :
    Term.default = Term.new ∧
    Term.beq Term.default (Term.from_unit_value .Ignore) = false ∧
    Term.default.display = "[]" ∧
    (Term.from_unit_value .Ignore).display = "Unit(Ignore)" ∧
    Term.default.display ≠ (Term.from_unit_value .Ignore).display := by
  refine ⟨rfl, rfl, rfl, rfl, ?_⟩
  decide

/-- C6: leaf equality is structural — wrapping the same value of the same
variant gives equal terms, and leaves of different variants are never
equal (all 30 ordered variant pairs), including integer 0 versus the unit
sentinel. -/
theorem structural_equality_of_leaves :
    (∀ v : BooleanValue, Term.beq (Term.from_bool v) (Term.from_bool v) = true) ∧
    (∀ v : Int, Term.beq (Term.from_i64 v) (Term.from_i64 v) = true) ∧
    (∀ v : NativeFn, Term.beq (Term.from_native_fn v) (Term.from_native_fn v) = true) ∧
    (∀ v : String, Term.beq (Term.from_string v) (Term.from_string v) = true) ∧
    (∀ v : Symbol, Term.beq (Term.from_symbol v) (Term.from_symbol v) = true) ∧
    (∀ v : UnitValue, Term.beq (Term.from_unit_value v) (Term.from_unit_value v) = true) ∧
    (∀ (v : BooleanValue) (w : Int), Term.beq (Term.from_bool v) (Term.from_i64 w) = false) ∧
    (∀ (v : BooleanValue) (w : NativeFn), Term.beq (Term.from_bool v) (Term.from_native_fn w) = false) ∧
    (∀ (v : BooleanValue) (w : String), Term.beq (Term.from_bool v) (Term.from_string w) = false) ∧
    (∀ (v : BooleanValue) (w : Symbol), Term.beq (Term.from_bool v) (Term.from_symbol w) = false) ∧
    (∀ (v : BooleanValue) (w : UnitValue), Term.beq (Term.from_bool v) (Term.from_unit_value w) = false) ∧
    (∀ (v : Int) (w : BooleanValue), Term.beq (Term.from_i64 v) (Term.from_bool w) = false) ∧
    (∀ (v : Int) (w : NativeFn), Term.beq (Term.from_i64 v) (Term.from_native_fn w) = false) ∧
    (∀ (v : Int) (w : String), Term.beq (Term.from_i64 v) (Term.from_string w) = false) ∧
    (∀ (v : Int) (w : Symbol), Term.beq (Term.from_i64 v) (Term.from_symbol w) = false) ∧
    (∀ (v : Int) (w : UnitValue), Term.beq (Term.from_i64 v) (Term.from_unit_value w) = false) ∧
    (∀ (v : NativeFn) (w : BooleanValue), Term.beq (Term.from_native_fn v) (Term.from_bool w) = false) ∧
    (∀ (v : NativeFn) (w : Int), Term.beq (Term.from_native_fn v) (Term.from_i64 w) = false) ∧
    (∀ (v : NativeFn) (w : String), Term.beq (Term.from_native_fn v) (Term.from_string w) = false) ∧
    (∀ (v : NativeFn) (w : Symbol), Term.beq (Term.from_native_fn v) (Term.from_symbol w) = false) ∧
    (∀ (v : NativeFn) (w : UnitValue), Term.beq (Term.from_native_fn v) (Term.from_unit_value w) = false) ∧
    (∀ (v : String) (w : BooleanValue), Term.beq (Term.from_string v) (Term.from_bool w) = false) ∧
    (∀ (v : String) (w : Int), Term.beq (Term.from_string v) (Term.from_i64 w) = false) ∧
    (∀ (v : String) (w : NativeFn), Term.beq (Term.from_string v) (Term.from_native_fn w) = false) ∧
    (∀ (v : String) (w : Symbol), Term.beq (Term.from_string v) (Term.from_symbol w) = false) ∧
    (∀ (v : String) (w : UnitValue), Term.beq (Term.from_string v) (Term.from_unit_value w) = false) ∧
    (∀ (v : Symbol) (w : BooleanValue), Term.beq (Term.from_symbol v) (Term.from_bool w) = false) ∧
    (∀ (v : Symbol) (w : Int), Term.beq (Term.from_symbol v) (Term.from_i64 w) = false) ∧
    (∀ (v : Symbol) (w : NativeFn), Term.beq (Term.from_symbol v) (Term.from_native_fn w) = false) ∧
    (∀ (v : Symbol) (w : String), Term.beq (Term.from_symbol v) (Term.from_string w) = false) ∧
    (∀ (v : Symbol) (w : UnitValue), Term.beq (Term.from_symbol v) (Term.from_unit_value w) = false) ∧
    (∀ (v : UnitValue) (w : BooleanValue), Term.beq (Term.from_unit_value v) (Term.from_bool w) = false) ∧
    (∀ (v : UnitValue) (w : Int), Term.beq (Term.from_unit_value v) (Term.from_i64 w) = false) ∧
    (∀ (v : UnitValue) (w : NativeFn), Term.beq (Term.from_unit_value v) (Term.from_native_fn w) = false) ∧
    (∀ (v : UnitValue) (w : String), Term.beq (Term.from_unit_value v) (Term.from_string w) = false) ∧
    (∀ (v : UnitValue) (w : Symbol), Term.beq (Term.from_unit_value v) (Term.from_symbol w) = false) :=
  ⟨fun v => by
    simp [Term.beq, Term.beqList, TermValue.beq, Term.from_bool, Term.from_i64,
      Term.from_native_fn, Term.from_string, Term.from_symbol, Term.from_unit_value,
      Term.new, Term.set_has_value, Term.set_value], fun v => by
    simp [Term.beq, Term.beqList, TermValue.beq, Term.from_bool, Term.from_i64,
      Term.from_native_fn, Term.from_string, Term.from_symbol, Term.from_unit_value,
      Term.new, Term.set_has_value, Term.set_value], fun v => by
    simp [Term.beq, Term.beqList, TermValue.beq, Term.from_bool, Term.from_i64,
      Term.from_native_fn, Term.from_string, Term.from_symbol, Term.from_unit_value,
      Term.new, Term.set_has_value, Term.set_value], fun v => by
    simp [Term.beq, Term.beqList, TermValue.beq, Term.from_bool, Term.from_i64,
      Term.from_native_fn, Term.from_string, Term.from_symbol, Term.from_unit_value,
      Term.new, Term.set_has_value, Term.set_value], fun v => by
    simp [Term.beq, Term.beqList, TermValue.beq, Term.from_bool, Term.from_i64,
      Term.from_native_fn, Term.from_string, Term.from_symbol, Term.from_unit_value,
      Term.new, Term.set_has_value, Term.set_value], fun v => by
    simp [Term.beq, Term.beqList, TermValue.beq, Term.from_bool, Term.from_i64,
      Term.from_native_fn, Term.from_string, Term.from_symbol, Term.from_unit_value,
      Term.new, Term.set_has_value, Term.set_value],
   fun _ _ => rfl, fun _ _ => rfl, fun _ _ => rfl, fun _ _ => rfl, fun _ _ => rfl, fun _ _ => rfl, fun _ _ => rfl, fun _ _ => rfl, fun _ _ => rfl, fun _ _ => rfl, fun _ _ => rfl, fun _ _ => rfl, fun _ _ => rfl, fun _ _ => rfl, fun _ _ => rfl, fun _ _ => rfl, fun _ _ => rfl, fun _ _ => rfl, fun _ _ => rfl, fun _ _ => rfl, fun _ _ => rfl, fun _ _ => rfl, fun _ _ => rfl, fun _ _ => rfl, fun _ _ => rfl, fun _ _ => rfl, fun _ _ => rfl, fun _ _ => rfl, fun _ _ => rfl, fun _ _ => rfl⟩

/-- C7: `is_branch()` is true iff the child sequence is non-empty,
whatever the `has_value` flag and the two value slots hold. -/
theorem is_branch_iff_children_nonempty (h : Bool) (s : List Term)
    (v r : TermValue) :
    (Term.mk h s v r).is_branch = true ↔ s ≠ [] := by
  cases s <;> simp [Term.is_branch, Term.sub_terms, List.isEmpty]

/-- C8: every freshly constructed leaf — `Term::new()`, `Default`, or any
of the six wrapping conversions — has `is_branch() == false` and
`len() == 0`; the default leaf holds the unit sentinel. -/
theorem fresh_leaf_shape :
    Term.new.is_branch = false ∧ Term.new.len = 0 ∧
    Term.default.is_branch = false ∧ Term.default.len = 0 ∧
    Term.new.value = TermValue.Unit .Ignore ∧
    (∀ v : BooleanValue, (Term.from_bool v).is_branch = false ∧ (Term.from_bool v).len = 0) ∧
    (∀ v : Int, (Term.from_i64 v).is_branch = false ∧ (Term.from_i64 v).len = 0) ∧
    (∀ v : NativeFn, (Term.from_native_fn v).is_branch = false ∧ (Term.from_native_fn v).len = 0) ∧
    (∀ v : String, (Term.from_string v).is_branch = false ∧ (Term.from_string v).len = 0) ∧
    (∀ v : Symbol, (Term.from_symbol v).is_branch = false ∧ (Term.from_symbol v).len = 0) ∧
    (∀ v : UnitValue, (Term.from_unit_value v).is_branch = false ∧ (Term.from_unit_value v).len = 0) :=
  ⟨rfl, rfl, rfl, rfl, rfl, fun _ => ⟨rfl, rfl⟩, fun _ => ⟨rfl, rfl⟩,
   fun _ => ⟨rfl, rfl⟩, fun _ => ⟨rfl, rfl⟩, fun _ => ⟨rfl, rfl⟩,
   fun _ => ⟨rfl, rfl⟩⟩

/-- C9: a term whose child sequence holds N ≥ 1 children has
`is_branch() == true` and `len() == N`; `len()` always equals the number
of direct children. -/
theorem branch_shape (t : Term) (N : Nat) (hN : 1 ≤ N)
    (hlen : t.sub_terms.length = N) :
    t.is_branch = true ∧ t.len = N ∧ t.len = t.sub_terms.length := by
  obtain ⟨h, s, v, r⟩ := t
  refine ⟨?_, hlen, rfl⟩
  cases s with
  | nil => simp [Term.sub_terms] at hlen; omega
  | cons a as => rfl

/-- Witness for C9 at the spec's scenario B: a branch of the three leaves
[Int(1), Int(2), Bool(true)] has `is_branch() == true` and `len() == 3`. -/
theorem branch_shape_witness :
    (Term.mk false [Term.from_i64 1, Term.from_i64 2, Term.from_bool true]
      (TermValue.Unit .Ignore) (TermValue.Unit .Ignore)).is_branch = true ∧
    (Term.mk false [Term.from_i64 1, Term.from_i64 2, Term.from_bool true]
      (TermValue.Unit .Ignore) (TermValue.Unit .Ignore)).len = 3 ∧
    (Term.mk false [Term.from_i64 1, Term.from_i64 2, Term.from_bool true]
      (TermValue.Unit .Ignore) (TermValue.Unit .Ignore)).len =
      (Term.mk false [Term.from_i64 1, Term.from_i64 2, Term.from_bool true]
        (TermValue.Unit .Ignore) (TermValue.Unit .Ignore)).sub_terms.length :=
  branch_shape _ 3 (by decide) rfl

/-- C10: unit-variant access on a default-constructed term succeeds with
the `Ignore` sentinel through all four accessor forms even though
`has_value` is false; the accessors match only on the primary value slot,
so unit access also succeeds on any term (children or not) whose primary
slot still holds the sentinel, and any two terms with equal primary slots
agree on every accessor. -/
theorem unit_access_ignores_shape :
    Term.new.has_value = false ∧
    Term.new.access_unit_value = some UnitValue.Ignore ∧
    Term.new.access_mut_unit_value = some UnitValue.Ignore ∧
    Term.new.try_access_unit_value = Except.ok UnitValue.Ignore ∧
    Term.new.try_access_mut_unit_value = Except.ok UnitValue.Ignore ∧
    (∀ (h : Bool) (cs : List Term) (r : TermValue),
      (Term.mk h cs (TermValue.Unit .Ignore) r).access_unit_value =
        some UnitValue.Ignore ∧
      (Term.mk h cs (TermValue.Unit .Ignore) r).access_mut_unit_value =
        some UnitValue.Ignore ∧
      (Term.mk h cs (TermValue.Unit .Ignore) r).try_access_unit_value =
        Except.ok UnitValue.Ignore ∧
      (Term.mk h cs (TermValue.Unit .Ignore) r).try_access_mut_unit_value =
        Except.ok UnitValue.Ignore) ∧
    (∀ t₁ t₂ : Term, t₁.value = t₂.value → accessors_agree t₁ t₂) := by
  refine ⟨rfl, rfl, rfl, rfl, rfl, fun _ _ _ => ⟨rfl, rfl, rfl, rfl⟩, ?_⟩
  intro t₁ t₂ hv
  obtain ⟨h₁, s₁, v₁, r₁⟩ := t₁
  obtain ⟨h₂, s₂, v₂, r₂⟩ := t₂
  simp [Term.value] at hv
  subst hv
  unfold accessors_agree
  exact ⟨rfl, rfl, rfl, rfl, rfl, rfl, rfl, rfl, rfl, rfl, rfl, rfl, rfl,
    rfl, rfl, rfl, rfl, rfl, rfl, rfl, rfl, rfl, rfl, rfl⟩

/-- Witness for C10: a term with a child, `has_value` true and a divergent
secondary slot but an untouched primary slot answers unit access exactly
as the default term does. -/
theorem unit_access_ignores_shape_witness :
    (Term.mk true [Term.new] (TermValue.Unit .Ignore)
      (TermValue.Int 5)).access_unit_value = Term.new.access_unit_value := by
  have hag := unit_access_ignores_shape.2.2.2.2.2.2
    (Term.mk true [Term.new] (TermValue.Unit .Ignore) (TermValue.Int 5))
    Term.new rfl
  exact hag.2.2.2.2.2.2.2.2.2.2.2.2.1

end ThesisLang
